import Mathlib

/-!
Verification of the `stina` desktop tool bridge
(`src/apps/desktop/src-tauri/src/main.rs`).

The bridge is a single Tauri command, `proassist_tool`, that resolves the
path of an external tool-runner script, serializes a JSON payload, spawns a
runner process with three positional arguments, and decodes the process's
stdout as a JSON value.  We embed the Rust code shallowly: the external
effects (filesystem existence checks, Tauri resource resolution,
environment variables, process spawning, lossy byte-to-text decoding, JSON
parsing of arbitrary text) are oracles collected in an `Env` structure, and
the repository's own control flow is translated function by function.
`proassist_tool` additionally returns the list of spawn attempts it made,
so that "no process is spawned" is a statement about the model.
-/

namespace Stina

/-- The tagged dynamic JSON value (`serde_json::Value`).  `serde_json`
numbers are i64/u64/f64; the claims treat the payload as opaque, so numbers
are modelled as integers. Objects are modelled as association lists. -/
inductive Json where
  | null
  | bool (b : Bool)
  | num (n : Int)
  | str (s : String)
  | arr (items : List Json)
  | obj (fields : List (String × Json))

/-- One hexadecimal digit (lower case), as used in JSON `\uXXXX` escapes. -/
def hexDigit (n : Nat) : Char :=
  if n < 10 then Char.ofNat (48 + n) else Char.ofNat (87 + n % 16)

/-- Four-digit hexadecimal rendering of a code point below 0x10000. -/
def hex4 (n : Nat) : String :=
  String.mk [hexDigit ((n / 4096) % 16), hexDigit ((n / 256) % 16),
             hexDigit ((n / 16) % 16), hexDigit (n % 16)]

/-- JSON string escaping of one character, following `serde_json`'s
compact formatter: quote, backslash and the named control characters get
two-character escapes, remaining control characters get `\uXXXX`. -/
def escapeJsonChar (c : Char) : String :=
  if c = '"' then "\\\""
  else if c = '\\' then "\\\\"
  else if c = '\n' then "\\n"
  else if c = '\r' then "\\r"
  else if c = '\t' then "\\t"
  else if c = Char.ofNat 8 then "\\b"
  else if c = Char.ofNat 12 then "\\f"
  else if c.toNat < 32 then "\\u" ++ hex4 c.toNat
  else String.singleton c

/-- A JSON string literal: the escaped characters between double quotes. -/
def serializeJsonString (s : String) : String :=
  "\"" ++ String.join (s.data.map escapeJsonChar) ++ "\""

mutual

/-- Compact JSON serialization of a `Json` value.  This models
`serde_json::to_string` applied to a `serde_json::Value`: on `Value` the
serializer is total, since every object key is already a string and the
in-memory writer cannot fail. -/
def Json.serialize : Json → String
  | .null => "null"
  | .bool true => "true"
  | .bool false => "false"
  | .num n => toString n
  | .str s => serializeJsonString s
  | .arr items => "[" ++ Json.serializeItems items ++ "]"
  | .obj fields => "\x7b" ++ Json.serializeFields fields ++ "\x7d"

/-- Comma-separated serialization of array elements. -/
def Json.serializeItems : List Json → String
  | [] => ""
  | [x] => Json.serialize x
  | x :: xs => Json.serialize x ++ "," ++ Json.serializeItems xs

/-- Comma-separated serialization of object fields. -/
def Json.serializeFields : List (String × Json) → String
  | [] => ""
  | [(k, v)] => serializeJsonString k ++ ":" ++ Json.serialize v
  | (k, v) :: fs =>
      serializeJsonString k ++ ":" ++ Json.serialize v ++ "," ++
        Json.serializeFields fs

end

/-- Model of `serde_json::to_string(&payload)` where `payload: Value`.  The Rust
call returns `Result<String, serde_json::Error>`; on a `Value` argument it
always succeeds (failure would require a non-string map key or a failing
`Serialize` implementation, neither of which `Value` has), so the model
always returns `Except.ok`. -/
def serde_to_string (payload : Json) : Except String String :=
  Except.ok (Json.serialize payload)

/-- The captured result of a finished child process
(`std::process::Output`): exit status plus the full stdout and stderr byte
streams.  `status = 0` models `ExitStatus::success()`. -/
structure Output where
  status : Nat
  stdout : List Nat
  stderr : List Nat
deriving DecidableEq, Repr

/-- One spawn attempt: the binary name handed to `Command::new` and the
positional arguments added with `.arg`. -/
structure SpawnCall where
  binary : String
  args : List String
deriving DecidableEq, Repr

/-- The external world of one call: filesystem existence (`Path::exists`),
Tauri resource resolution (`PathResolver::resolve_resource`), environment
variables (`std::env::var`), process execution (`Command::output`, failing
with the OS error text when the binary cannot be started), lossy UTF-8
decoding (`String::from_utf8_lossy`, total by construction), and JSON text
parsing (`serde_json::from_str::<Value>`, failing with the parser's
message). -/
structure Env where
  fileExists : String → Bool
  resolveResource : String → Option String
  envVar : String → Option String
  spawn : SpawnCall → Except String Output
  lossyDecode : List Nat → String
  parseJson : String → Except String Json

/-- The development-relative candidate path for the runner script. -/
def devRunnerPath : String := "../packages/tool-runner/dist/cli.cjs"

/-- The bundled-resource candidate path for the runner script. -/
def resourceRunnerPath : String := "packages/tool-runner/dist/cli.cjs"

/-- The message of the `anyhow!` error raised when no candidate exists. -/
def missingRunnerMsg : String :=
  "Tool runner binary missing. Build @pro-assist/tool-runner before starting the app."

/-- Translation of `resolve_tool_runner`: try the development-relative path; if it does
not exist and a bundled resource resolves, switch to the resource path;
fail when the chosen path still does not exist. -/
def resolve_tool_runner (env : Env) : Except String String :=
  let relative := devRunnerPath
  let relative :=
    if !env.fileExists relative then
      match env.resolveResource resourceRunnerPath with
      | some resource => resource
      | none => relative
    else relative
  if !env.fileExists relative then
    Except.error missingRunnerMsg
  else
    Except.ok relative

/-- Translation of `node_binary`: the `PRO_ASSIST_NODE` environment override, defaulting
to `"node"`. -/
def node_binary (env : Env) : String :=
  match env.envVar "PRO_ASSIST_NODE" with
  | some v => v
  | none => "node"

/-- The stage-tagged failure of one call.  The Rust function returns
`Result<Value, String>`; the tag records which `map_err`/`return Err`
produced the message, and `ToolError.render` reproduces the exact string
the caller receives. -/
inductive ToolError where
  | pathResolution (msg : String)
  | serialization (msg : String)
  | spawnFailed (msg : String)
  | execution (stderrText : String)
  | decode (msg : String)
deriving DecidableEq, Repr

/-- The caller-visible message of each failure, exactly as formatted in
the source: the resolver and the two serde error paths pass their message
through unchanged, the spawn and non-zero-exit paths add a prefix. -/
def ToolError.render : ToolError → String
  | .pathResolution m => m
  | .serialization m => m
  | .spawnFailed m => "Failed to invoke tool runner: " ++ m
  | .execution s => "Tool runner error: " ++ s
  | .decode m => m

/-- Translation of `proassist_tool`: resolve the runner, serialize the payload, spawn
`node_binary` with `[script_path, tool, payload_json]`, and either forward
stderr on a non-zero exit or parse stdout as a JSON value.  The second
component is the list of spawn attempts made during the call. -/
def proassist_tool (env : Env) (tool : String) (payload : Json) :
    Except ToolError Json × List SpawnCall :=
  match resolve_tool_runner env with
  | .error e => (Except.error (ToolError.pathResolution e), [])
  | .ok script_path =>
    match serde_to_string payload with
    | .error e => (Except.error (ToolError.serialization e), [])
    | .ok payload_json =>
      let call : SpawnCall := ⟨node_binary env, [script_path, tool, payload_json]⟩
      match env.spawn call with
      | .error e => (Except.error (ToolError.spawnFailed e), [call])
      | .ok output =>
        if output.status ≠ 0 then
          (Except.error (ToolError.execution (env.lossyDecode output.stderr)), [call])
        else
          match env.parseJson (env.lossyDecode output.stdout) with
          | .ok v => (Except.ok v, [call])
          | .error e => (Except.error (ToolError.decode e), [call])

/-- The `Result<Value, String>` actually returned to the Tauri caller:
the structured result with every failure rendered to its message. -/
def proassist_tool_message (env : Env) (tool : String) (payload : Json) :
    Except String Json :=
  ((proassist_tool env tool payload).1).mapError ToolError.render

/-! ### Concrete environments used as witnesses -/

/-- The UTF-8 bytes of `"null"`. -/
def nullBytes : List Nat := [110, 117, 108, 108]

/-- The UTF-8 bytes of `"bad tool"`. -/
def badToolBytes : List Nat := [98, 97, 100, 32, 116, 111, 111, 108]

/-- The UTF-8 bytes of `"oops"`. -/
def oopsBytes : List Nat := [111, 111, 112, 115]

/-- A JSON-parse stand-in used by the concrete environments: accepts
exactly the text `"null"`, rejects everything else with a
`serde_json`-style message. -/
def parseOnlyNull (s : String) : Except String Json :=
  if s = "null" then Except.ok Json.null
  else Except.error "expected value at line 1 column 1"

/-- A lossy-decode stand-in: maps the byte lists used by the concrete
environments to their decoded text. -/
def decodeKnownBytes (bs : List Nat) : String :=
  if bs = nullBytes then "null"
  else if bs = badToolBytes then "bad tool"
  else if bs = oopsBytes then "oops"
  else ""

/-- Only the development-relative runner path exists; the runner exits 0
printing `null` on stdout. -/
def envDevOk : Env where
  fileExists := fun p => p == devRunnerPath
  resolveResource := fun _ => none
  envVar := fun _ => none
  spawn := fun _ => Except.ok ⟨0, nullBytes, []⟩
  lossyDecode := decodeKnownBytes
  parseJson := parseOnlyNull

/-- Every path exists, and a bundled resource path resolves as well. -/
def envBoth : Env where
  fileExists := fun _ => true
  resolveResource := fun _ => some "/bundle/packages/tool-runner/dist/cli.cjs"
  envVar := fun _ => none
  spawn := fun _ => Except.ok ⟨0, nullBytes, []⟩
  lossyDecode := decodeKnownBytes
  parseJson := parseOnlyNull

/-- No path exists at all, although a bundled resource path resolves. -/
def envMissing : Env where
  fileExists := fun _ => false
  resolveResource := fun _ => some "/bundle/packages/tool-runner/dist/cli.cjs"
  envVar := fun _ => none
  spawn := fun _ => Except.ok ⟨0, nullBytes, []⟩
  lossyDecode := decodeKnownBytes
  parseJson := parseOnlyNull

/-- The runner exists but exits 1 with `bad tool` on stderr. -/
def envExecFail : Env where
  fileExists := fun p => p == devRunnerPath
  resolveResource := fun _ => none
  envVar := fun _ => none
  spawn := fun _ => Except.ok ⟨1, nullBytes, badToolBytes⟩
  lossyDecode := decodeKnownBytes
  parseJson := parseOnlyNull

/-- The runner exists and exits 0, but prints `oops` — not JSON — on
stdout. -/
def envDecodeFail : Env where
  fileExists := fun p => p == devRunnerPath
  resolveResource := fun _ => none
  envVar := fun _ => none
  spawn := fun _ => Except.ok ⟨0, oopsBytes, []⟩
  lossyDecode := decodeKnownBytes
  parseJson := parseOnlyNull

/-- Like `envDevOk`, but with the `PRO_ASSIST_NODE` override set to a stub
binary path. -/
def envOverride : Env where
  fileExists := fun p => p == devRunnerPath
  resolveResource := fun _ => none
  envVar := fun n => if n = "PRO_ASSIST_NODE" then some "/stub/record-args" else none
  spawn := fun _ => Except.ok ⟨0, nullBytes, []⟩
  lossyDecode := decodeKnownBytes
  parseJson := parseOnlyNull

/-- No runner path exists and no resource resolves: the call fails at path
resolution with `missingRunnerMsg`. -/
def envPathFail : Env where
  fileExists := fun _ => false
  resolveResource := fun _ => none
  envVar := fun _ => none
  spawn := fun _ => Except.ok ⟨0, [], []⟩
  lossyDecode := fun _ => ""
  parseJson := fun _ => Except.error "EOF while parsing a value at line 1 column 0"

/-- Realizability of a JSON-parse failure message, modelled from
`serde_json`: every error that `from_str::<Value>` can return displays as
`<cause> at line L column C`, where the cause is drawn from the library's
fixed vocabulary of syntax/EOF phrases.  Such a message never coincides
with the bridge's fixed path-resolution sentence and never begins with
the bridge's spawn or execution prefixes, which is all the bridge's
message channel relies on. -/
def serdeParseMessage (m : String) : Prop :=
  m ≠ missingRunnerMsg ∧
  ¬ (("Failed to invoke tool runner: ").data <+: m.data) ∧
  ¬ (("Tool runner error: ").data <+: m.data)

/-! ### Theorems -/

/-- C5: `resolve_tool_runner` evaluates exactly the two fixed candidate
paths in priority order — the development-relative path first, then the
bundled-resource path — and returns the first that exists.  When the
development-relative path exists it is returned regardless of the bundled
path; when it does not, the resolved resource path is returned exactly
when it exists; when no resource resolves either, the call fails; and
every successfully returned path is one of the two candidates. -/
theorem resolve_two_candidates (env : Env) :
    (env.fileExists devRunnerPath = true →
      resolve_tool_runner env = Except.ok devRunnerPath) ∧
    (env.fileExists devRunnerPath = false →
      ∀ r, env.resolveResource resourceRunnerPath = some r →
        resolve_tool_runner env =
          if env.fileExists r then Except.ok r
          else Except.error missingRunnerMsg) ∧
    (env.fileExists devRunnerPath = false →
      env.resolveResource resourceRunnerPath = none →
        resolve_tool_runner env = Except.error missingRunnerMsg) ∧
    (∀ p, resolve_tool_runner env = Except.ok p →
      p = devRunnerPath ∨ env.resolveResource resourceRunnerPath = some p) := by
  refine ⟨?_, ?_, ?_, ?_⟩
  · intro hdev
    simp [resolve_tool_runner, hdev]
  · intro hdev r hr
    simp only [resolve_tool_runner, hdev, Bool.not_false, if_true, hr]
    by_cases hre : env.fileExists r <;> simp [hre]
  · intro hdev hr
    simp [resolve_tool_runner, hdev, hr]
  · intro p hp
    unfold resolve_tool_runner at hp
    cases hdev : env.fileExists devRunnerPath with
    | true =>
      simp [hdev] at hp
      left; exact hp.symm
    | false =>
      cases hr : env.resolveResource resourceRunnerPath with
      | none => simp [hdev, hr] at hp
      | some r =>
        simp only [hdev, hr, Bool.not_false, if_true] at hp
        cases hre : env.fileExists r with
        | false => simp [hre] at hp
        | true =>
          simp [hre] at hp
          right; exact congrArg some hp

/-- C5 witness: with both candidate locations present (`envBoth`), the
development-relative path wins. -/
theorem resolve_two_candidates_witness :
    resolve_tool_runner envBoth = Except.ok devRunnerPath :=
  (resolve_two_candidates envBoth).1 rfl

/-- C2: when the development-relative path does not exist and any resolved
resource path does not exist either, the call fails at path resolution
with the fixed message (which instructs the operator to build the runner,
literally containing `Build @pro-assist/tool-runner`), and the spawn trace
is empty: no process is spawned. -/
theorem missing_runner_no_spawn (env : Env) (tool : String) (payload : Json)
    (hdev : env.fileExists devRunnerPath = false)
    (hres : ∀ r, env.resolveResource resourceRunnerPath = some r →
      env.fileExists r = false) :
    proassist_tool env tool payload =
      (Except.error (ToolError.pathResolution missingRunnerMsg), []) ∧
    ∃ s₁ s₂, missingRunnerMsg = s₁ ++ "Build @pro-assist/tool-runner" ++ s₂ := by
  constructor
  · have hfail : resolve_tool_runner env = Except.error missingRunnerMsg := by
      unfold resolve_tool_runner
      cases hr : env.resolveResource resourceRunnerPath with
      | none => simp [hdev, hr]
      | some r => simp [hdev, hr, hres r hr]
    simp [proassist_tool, hfail]
  · exact ⟨"Tool runner binary missing. ", " before starting the app.", rfl⟩

/-- C2 witness: in `envMissing` nothing exists on disk; the call returns
the path-resolution failure and records no spawn attempt. -/
theorem missing_runner_no_spawn_witness :
    proassist_tool envMissing "echo" Json.null =
      (Except.error (ToolError.pathResolution missingRunnerMsg), []) :=
  (missing_runner_no_spawn envMissing "echo" Json.null rfl
    (fun r h => by cases h; rfl)).1

/-- C1: when a runner path resolves, the spawned process exits with
status 0, and its decoded stdout parses as the JSON value `v`, the call
returns `Except.ok v` — exactly the decoded value, unchanged, with no
schema validation. -/
theorem json_passthrough (env : Env) (tool : String) (payload : Json)
    (path : String) (out : Output) (v : Json)
    (hres : resolve_tool_runner env = Except.ok path)
    (hspawn : env.spawn ⟨node_binary env, [path, tool, Json.serialize payload]⟩
      = Except.ok out)
    (hstatus : out.status = 0)
    (hparse : env.parseJson (env.lossyDecode out.stdout) = Except.ok v) :
    (proassist_tool env tool payload).1 = Except.ok v := by
  unfold proassist_tool
  simp [hres, serde_to_string, hspawn, hstatus, hparse]

/-- C1 witness: in `envDevOk` the runner prints the bytes of `null`, and
the call returns `Json.null`. -/
theorem json_passthrough_witness :
    (proassist_tool envDevOk "echo" Json.null).1 = Except.ok Json.null :=
  json_passthrough envDevOk "echo" Json.null devRunnerPath
    ⟨0, nullBytes, []⟩ Json.null (by rfl) rfl rfl (by rfl)

/-- C3: when the spawned process exits with a non-zero status, the call
fails at the execution stage; the message delivered to the caller is the
fixed prefix followed by the decoded stderr text (so it contains that
text verbatim), and no JSON value — in particular nothing from stdout —
is returned. -/
theorem nonzero_exit_execution_error (env : Env) (tool : String)
    (payload : Json) (path : String) (out : Output)
    (hres : resolve_tool_runner env = Except.ok path)
    (hspawn : env.spawn ⟨node_binary env, [path, tool, Json.serialize payload]⟩
      = Except.ok out)
    (hstatus : out.status ≠ 0) :
    (proassist_tool env tool payload).1 =
      Except.error (ToolError.execution (env.lossyDecode out.stderr)) ∧
    proassist_tool_message env tool payload =
      Except.error ("Tool runner error: " ++ env.lossyDecode out.stderr) ∧
    ∀ v, (proassist_tool env tool payload).1 ≠ Except.ok v := by
  have h1 : (proassist_tool env tool payload).1 =
      Except.error (ToolError.execution (env.lossyDecode out.stderr)) := by
    unfold proassist_tool
    simp [hres, serde_to_string, hspawn, hstatus]
  refine ⟨h1, ?_, ?_⟩
  · unfold proassist_tool_message
    rw [h1]
    rfl
  · intro v hv
    rw [h1] at hv
    exact Except.noConfusion hv

/-- C3 witness: in `envExecFail` the runner exits 1 with `bad tool` on
stderr, and the caller-visible message contains that text. -/
theorem nonzero_exit_execution_error_witness :
    proassist_tool_message envExecFail "echo" Json.null =
      Except.error ("Tool runner error: " ++ "bad tool") :=
  (nonzero_exit_execution_error envExecFail "echo" Json.null devRunnerPath
    ⟨1, nullBytes, badToolBytes⟩ (by rfl) rfl (by decide)).2.1

/-- C4: when the spawned process exits with status 0 but its decoded
stdout does not parse as a JSON value, the call fails at the decode stage
carrying the parser's message verbatim — a failure distinct from the
execution stage, whose tag it can never equal. -/
theorem invalid_stdout_decode_error (env : Env) (tool : String)
    (payload : Json) (path : String) (out : Output) (e : String)
    (hres : resolve_tool_runner env = Except.ok path)
    (hspawn : env.spawn ⟨node_binary env, [path, tool, Json.serialize payload]⟩
      = Except.ok out)
    (hstatus : out.status = 0)
    (hparse : env.parseJson (env.lossyDecode out.stdout) = Except.error e) :
    (proassist_tool env tool payload).1 =
      Except.error (ToolError.decode e) ∧
    proassist_tool_message env tool payload = Except.error e ∧
    ∀ s, ToolError.decode e ≠ ToolError.execution s := by
  have h1 : (proassist_tool env tool payload).1 =
      Except.error (ToolError.decode e) := by
    unfold proassist_tool
    simp [hres, serde_to_string, hspawn, hstatus, hparse]
  refine ⟨h1, ?_, ?_⟩
  · unfold proassist_tool_message
    rw [h1]
    rfl
  · intro s hs
    exact ToolError.noConfusion hs

/-- C4 witness: in `envDecodeFail` the runner exits 0 printing `oops`,
and the call fails with the parser's message. -/
theorem invalid_stdout_decode_error_witness :
    (proassist_tool envDecodeFail "echo" Json.null).1 =
      Except.error (ToolError.decode "expected value at line 1 column 1") :=
  (invalid_stdout_decode_error envDecodeFail "echo" Json.null devRunnerPath
    ⟨0, oopsBytes, []⟩ "expected value at line 1 column 1"
    (by rfl) rfl rfl (by rfl)).1

/-- C6: every spawn attempt made by a call uses the binary chosen by
`node_binary` — the `PRO_ASSIST_NODE` override when set, `"node"`
otherwise, so setting the override changes the spawned executable — and
passes exactly three positional arguments, in order: the resolved script
path, the tool name, and the serialized JSON payload text. -/
theorem spawned_command_shape (env : Env) (tool : String) (payload : Json)
    (call : SpawnCall) (hmem : call ∈ (proassist_tool env tool payload).2) :
    call.binary = node_binary env ∧
    (∀ b, env.envVar "PRO_ASSIST_NODE" = some b → call.binary = b) ∧
    (env.envVar "PRO_ASSIST_NODE" = none → call.binary = "node") ∧
    ∃ path, resolve_tool_runner env = Except.ok path ∧
      call.args = [path, tool, Json.serialize payload] := by
  have hcall : ∃ path, resolve_tool_runner env = Except.ok path ∧
      call = ⟨node_binary env, [path, tool, Json.serialize payload]⟩ := by
    unfold proassist_tool at hmem
    cases hres : resolve_tool_runner env with
    | error e => simp [hres] at hmem
    | ok path =>
      refine ⟨path, rfl, ?_⟩
      simp only [hres, serde_to_string] at hmem
      cases hsp : env.spawn ⟨node_binary env, [path, tool, Json.serialize payload]⟩ with
      | error e =>
        simp [hsp] at hmem
        exact hmem
      | ok out =>
        simp only [hsp] at hmem
        by_cases hst : out.status ≠ 0
        · simp [hst] at hmem
          exact hmem
        · cases hpj : env.parseJson (env.lossyDecode out.stdout) <;>
            simp [hst, hpj] at hmem <;> exact hmem
  obtain ⟨path, hres, hc⟩ := hcall
  subst hc
  refine ⟨rfl, ?_, ?_, path, hres, rfl⟩
  · intro b hb
    simp [node_binary, hb]
  · intro hb
    simp [node_binary, hb]

/-- C6 witness: with the override set (`envOverride`), the recorded spawn
uses the stub binary and the three arguments in order. -/
theorem spawned_command_shape_witness :
    SpawnCall.binary ⟨"/stub/record-args", [devRunnerPath, "echo", "null"]⟩
      = node_binary envOverride ∧
    ∃ path, resolve_tool_runner envOverride = Except.ok path ∧
      SpawnCall.args ⟨"/stub/record-args", [devRunnerPath, "echo", "null"]⟩
        = [path, "echo", Json.serialize Json.null] := by
  have h := spawned_command_shape envOverride "echo" Json.null
    ⟨"/stub/record-args", [devRunnerPath, "echo", "null"]⟩
    (by rw [show (proassist_tool envOverride "echo" Json.null).2 =
        [⟨"/stub/record-args", [devRunnerPath, "echo", "null"]⟩] from rfl]
        ; exact List.mem_singleton.mpr rfl)
  exact ⟨h.1, h.2.2.2⟩

/-- C9: serializing a payload that is already a JSON value always
succeeds, so the serialization-failure branch is unreachable: no call
ever fails with a serialization error. -/
theorem serialization_error_unreachable (env : Env) (tool : String)
    (payload : Json) :
    (∃ s, serde_to_string payload = Except.ok s) ∧
    ∀ m, (proassist_tool env tool payload).1 ≠
      Except.error (ToolError.serialization m) := by
  refine ⟨⟨Json.serialize payload, rfl⟩, ?_⟩
  intro m hm
  unfold proassist_tool at hm
  cases hres : resolve_tool_runner env with
  | error e => simp [hres] at hm
  | ok path =>
    simp only [hres, serde_to_string] at hm
    cases hsp : env.spawn ⟨node_binary env, [path, tool, Json.serialize payload]⟩ with
    | error e => simp [hsp] at hm
    | ok out =>
      by_cases hst : out.status ≠ 0
      · simp [hsp, hst] at hm
      · cases hpj : env.parseJson (env.lossyDecode out.stdout) with
        | error e => simp [hsp, hst, hpj] at hm
        | ok v => simp [hsp, hst, hpj] at hm

/-- C9 witness: a concrete call can never produce a serialization
failure. -/
theorem serialization_error_unreachable_witness :
    (proassist_tool envDevOk "echo" Json.null).1 ≠
      Except.error (ToolError.serialization "x") :=
  (serialization_error_unreachable envDevOk "echo" Json.null).2 "x"

/-- C10: when the process exits with status 0 the captured stderr is
ignored entirely — two runs identical except for the stderr content
(same resolution, same environment, same status 0, same stdout) deliver
the same result; the outcome is a function of stdout alone. -/
theorem stderr_ignored_on_success (fe : String → Bool)
    (rr ev : String → Option String) (ld : List Nat → String)
    (pj : String → Except String Json) (out out' : Output)
    (tool : String) (payload : Json)
    (hst : out.status = 0) (hst' : out'.status = 0)
    (hso : out.stdout = out'.stdout) :
    (proassist_tool ⟨fe, rr, ev, fun _ => Except.ok out, ld, pj⟩
      tool payload).1 =
    (proassist_tool ⟨fe, rr, ev, fun _ => Except.ok out', ld, pj⟩
      tool payload).1 := by
  unfold proassist_tool
  have hrr : resolve_tool_runner ⟨fe, rr, ev, fun _ => Except.ok out, ld, pj⟩ =
      resolve_tool_runner ⟨fe, rr, ev, fun _ => Except.ok out', ld, pj⟩ := rfl
  cases hres : resolve_tool_runner ⟨fe, rr, ev, fun _ => Except.ok out, ld, pj⟩ with
  | error e => rw [← hrr]; simp [hres]
  | ok path =>
    rw [← hrr]
    simp [hres, serde_to_string, hst, hst', hso]
    cases hpj : pj (ld out'.stdout) <;> simp [hpj]

/-- C10 witness: two concrete runs differing only in stderr (`[1, 2, 3]`
against `[9, 9]`) deliver the same result. -/
theorem stderr_ignored_on_success_witness :
    (proassist_tool ⟨fun p => p == devRunnerPath, fun _ => none, fun _ => none,
        fun _ => Except.ok ⟨0, nullBytes, [1, 2, 3]⟩, decodeKnownBytes,
        parseOnlyNull⟩ "echo" Json.null).1 =
    (proassist_tool ⟨fun p => p == devRunnerPath, fun _ => none, fun _ => none,
        fun _ => Except.ok ⟨0, nullBytes, [9, 9]⟩, decodeKnownBytes,
        parseOnlyNull⟩ "echo" Json.null).1 :=
  stderr_ignored_on_success (fun p => p == devRunnerPath) (fun _ => none)
    (fun _ => none) decodeKnownBytes parseOnlyNull
    ⟨0, nullBytes, [1, 2, 3]⟩ ⟨0, nullBytes, [9, 9]⟩ "echo" Json.null
    rfl rfl rfl

/-- Helper: a string whose character list does not start with `p`'s
character list is never `p ++ s`. -/
theorem string_ne_append_of_no_lead (a p s : String)
    (h : ¬ (p.data <+: a.data)) : a ≠ p ++ s := by
  intro heq
  exact h ⟨s.data, by rw [← String.data_append, ← heq]⟩

/-- Helper: two appends whose left parts disagree within their common
first `n` characters are never equal. -/
theorem string_append_ne_append (p q a b : String) (n : Nat)
    (hp : n ≤ p.data.length) (hq : n ≤ q.data.length)
    (hne : p.data.take n ≠ q.data.take n) : p ++ a ≠ q ++ b := by
  intro heq
  apply hne
  have hd := congrArg String.data heq
  rw [String.data_append, String.data_append] at hd
  calc p.data.take n
      = (p.data ++ a.data).take n := (List.take_append_of_le_length hp).symm
    _ = (q.data ++ b.data).take n := by rw [hd]
    _ = q.data.take n := List.take_append_of_le_length hq

/-- Helper: string append is left-cancellative. -/
theorem string_append_left_cancel (p a b : String) (h : p ++ a = p ++ b) :
    a = b := by
  have hd := congrArg String.data h
  rw [String.data_append, String.data_append] at hd
  exact String.ext (List.append_cancel_left hd)

/-- Helper: the resolver fails only with the fixed missing-runner
message. -/
theorem resolve_error_msg (env : Env) (m : String)
    (hm : resolve_tool_runner env = Except.error m) :
    m = missingRunnerMsg := by
  unfold resolve_tool_runner at hm
  cases hdev : env.fileExists devRunnerPath with
  | true => simp [hdev] at hm
  | false =>
    cases hr : env.resolveResource resourceRunnerPath with
    | none =>
      simp [hdev, hr] at hm
      exact hm.symm
    | some r =>
      simp only [hdev, hr, Bool.not_false, if_true] at hm
      cases hre : env.fileExists r with
      | true => simp [hre] at hm
      | false =>
        simp [hre] at hm
        exact hm.symm

/-- Helper: every failure of a call is a path-resolution failure carrying
the fixed message, a spawn failure, an execution failure, or a decode
failure carrying a message the parse oracle actually produced. -/
theorem proassist_error_shape (env : Env) (tool : String) (payload : Json)
    (e : ToolError)
    (he : (proassist_tool env tool payload).1 = Except.error e) :
    e = ToolError.pathResolution missingRunnerMsg ∨
    (∃ m, e = ToolError.spawnFailed m) ∨
    (∃ s, e = ToolError.execution s) ∨
    (∃ m, e = ToolError.decode m ∧
      ∃ s, env.parseJson s = Except.error m) := by
  unfold proassist_tool at he
  cases hres : resolve_tool_runner env with
  | error msg =>
    simp [hres] at he
    left
    rw [← he]
    rw [resolve_error_msg env msg hres]
  | ok path =>
    simp only [hres, serde_to_string] at he
    cases hsp : env.spawn ⟨node_binary env, [path, tool, Json.serialize payload]⟩ with
    | error msg =>
      simp [hsp] at he
      right; left
      exact ⟨msg, he.symm⟩
    | ok out =>
      by_cases hst : out.status ≠ 0
      · simp [hsp, hst] at he
        right; right; left
        exact ⟨env.lossyDecode out.stderr, he.symm⟩
      · cases hpj : env.parseJson (env.lossyDecode out.stdout) with
        | error msg =>
          simp [hsp, hst, hpj] at he
          right; right; right
          exact ⟨msg, he.symm, env.lossyDecode out.stdout, hpj⟩
        | ok v => simp [hsp, hst, hpj] at he

/-- C7: the single human-readable failure message delivered to the caller
names which stage failed and why — formalized as identifiability: across
any two failing calls whose JSON-parse oracles emit only
`serde_json`-realizable messages, equal delivered messages imply the very
same structured failure, stage and cause alike.  Path-resolution failures
carry the fixed missing-runner sentence, spawn and execution failures
carry their two distinct prefixes followed by the cause, decode failures
carry the parser's message (which can never collide with the other
three), and serialization failures cannot occur. -/
theorem failure_message_names_stage
    (env env' : Env) (tool tool' : String) (payload payload' : Json)
    (hpj : ∀ s m, env.parseJson s = Except.error m → serdeParseMessage m)
    (hpj' : ∀ s m, env'.parseJson s = Except.error m → serdeParseMessage m)
    (e e' : ToolError)
    (he : (proassist_tool env tool payload).1 = Except.error e)
    (he' : (proassist_tool env' tool' payload').1 = Except.error e')
    (hmsg : ToolError.render e = ToolError.render e') :
    e = e' := by
  have hf1 : ∀ s, missingRunnerMsg ≠ "Failed to invoke tool runner: " ++ s :=
    fun s => string_ne_append_of_no_lead _ _ s (by decide)
  have hf2 : ∀ s, missingRunnerMsg ≠ "Tool runner error: " ++ s :=
    fun s => string_ne_append_of_no_lead _ _ s (by decide)
  have hf3 : ∀ a b,
      ("Failed to invoke tool runner: " ++ a) ≠ ("Tool runner error: " ++ b) :=
    fun a b => string_append_ne_append _ _ a b 1 (by decide) (by decide)
      (by decide)
  rcases proassist_error_shape env tool payload e he with
    h | ⟨m, h⟩ | ⟨s, h⟩ | ⟨m, h, w, hw⟩ <;>
    rcases proassist_error_shape env' tool' payload' e' he' with
      h' | ⟨m', h'⟩ | ⟨s', h'⟩ | ⟨m', h', w', hw'⟩ <;>
    subst h <;> subst h' <;>
    simp only [ToolError.render] at hmsg
  · rfl
  · exact absurd hmsg (hf1 m')
  · exact absurd hmsg (hf2 s')
  · exact absurd hmsg.symm (hpj' w' m' hw').1
  · exact absurd hmsg.symm (hf1 m)
  · rw [string_append_left_cancel _ _ _ hmsg]
  · exact absurd hmsg (hf3 m s')
  · exact absurd ⟨m.data, by rw [← String.data_append, hmsg]⟩
      (hpj' w' m' hw').2.1
  · exact absurd hmsg.symm (hf2 s)
  · exact absurd hmsg.symm (hf3 m' s)
  · rw [string_append_left_cancel _ _ _ hmsg]
  · exact absurd ⟨s.data, by rw [← String.data_append, hmsg]⟩
      (hpj' w' m' hw').2.2
  · exact absurd hmsg (hpj w m hw).1
  · exact absurd ⟨m'.data, by rw [← String.data_append, ← hmsg]⟩
      (hpj w m hw).2.1
  · exact absurd ⟨s'.data, by rw [← String.data_append, ← hmsg]⟩
      (hpj w m hw).2.2
  · rw [hmsg]

/-- C7 witness: two concrete calls against different environments
(`envPathFail` and `envMissing`), whose parse oracles emit only
serde-realizable messages, deliver equal messages, and the theorem
identifies both failures as the same path-resolution error. -/
theorem failure_message_names_stage_witness :
    (ToolError.pathResolution missingRunnerMsg) =
      (ToolError.pathResolution missingRunnerMsg) :=
  failure_message_names_stage envPathFail envMissing "echo" "other"
    Json.null (Json.bool true)
    (by
      intro s m h
      injection h with h2
      rw [← h2]
      unfold serdeParseMessage
      decide)
    (by
      intro s m h
      have h2 : parseOnlyNull s = Except.error m := h
      unfold parseOnlyNull at h2
      by_cases hs : s = "null"
      · rw [if_pos hs] at h2
        exact Except.noConfusion h2
      · rw [if_neg hs] at h2
        injection h2 with h3
        rw [← h3]
        unfold serdeParseMessage
        decide)
    (ToolError.pathResolution missingRunnerMsg)
    (ToolError.pathResolution missingRunnerMsg)
    (by rfl) (by rfl) rfl

end Stina
